import Mathlib

/-!
Verification of `atom-filter-serve` (src/main.rs): a feed-transformation
proxy that fetches a remote Atom feed, retains entries whose title or
summary contains a configured keyword, renders the result as Atom or RSS,
and caches the Atom rendering.

The embedding models the data the pipeline manipulates (parsed feed values
as exposed by the `atom_syndication` accessors used in the source), the
filter closures, the two renderers at the structural level (the fields the
builders populate, before XML serialization), and the two HTTP handlers as
pure functions of the cache slot, the clock, the query parameters and the
outcome of the one pipeline invocation the handler may make.
-/

/-- Case mapping of one character, modelling Rust `char`/`str` lowercasing. -/
def lowerChar (c : Char) : Char := c.toLower

/-- Lowercase a string character-by-character, modelling `str::to_lowercase`. -/
def lowerStr (s : String) : String := String.mk (s.data.map lowerChar)

/-- Whether `p` is a leading segment of `h`, the primitive of substring search. -/
def isPref : List Char → List Char → Bool
  | [], _ => true
  | _ :: _, [] => false
  | p :: ps, h :: hs => p == h && isPref ps hs

/-- Whether `needle` occurs contiguously inside `hay`. -/
def hasSub (needle : List Char) : List Char → Bool
  | [] => isPref needle []
  | c :: rest => isPref needle (c :: rest) || hasSub needle rest

/-- Model of Rust `str::contains(&pat)`: plain substring search. -/
def strContains (hay pat : String) : Bool := hasSub pat.data hay.data

/-- A feed link, as used through `Link::href`. -/
structure Link where
  href : String
  deriving Repr, DecidableEq

/-- A feed person, as used through `Person::name`. -/
structure Person where
  name : String
  deriving Repr, DecidableEq

/-- Entry content: `Content::value` is optional in the library. -/
structure Content where
  value : Option String
  deriving Repr, DecidableEq

/-- One parsed Atom entry, with the fields the pipeline reads:
`title().as_str()`, `summary()`, `content()`, `links()`, `updated()`,
`authors()`, `id()`. Timestamps are modelled as naturals. -/
structure Entry where
  title : String
  summary : Option String
  content : Option Content
  links : List Link
  updated : Nat
  authors : List Person
  id : String
  deriving Repr, DecidableEq

/-- A parsed Atom feed, with the fields the pipeline reads:
`id()`, `authors()`, `links()`, `entries()`. The library exposes `id` as a
plain string (empty when the element was absent), never as an option. -/
structure Feed where
  id : String
  authors : List Person
  links : List Link
  entries : List Entry
  deriving Repr, DecidableEq

/-- The run configuration, from `AppConfig` in src/main.rs. -/
structure AppConfig where
  atom_feed_url : String
  filter_word : String
  feed_title : String
  feed_description : String
  deriving Repr, DecidableEq

/-- The filter closure of `fetch_and_filter_feed` (src/main.rs lines 310-318):
retain when the lower-cased title or lower-cased summary-or-empty contains
the pre-lowered keyword. -/
def entryMatchesAtom (filter_word_lower : String) (entry : Entry) : Bool :=
  let title := lowerStr entry.title
  let summary := (entry.summary.map lowerStr).getD ""
  strContains title filter_word_lower || strContains summary filter_word_lower

/-- The filter closure of `fetch_and_filter_feed_rss` (src/main.rs lines
370-378), written out separately because it is a separate closure in the
source. -/
def entryMatchesRss (filter_word_lower : String) (entry : Entry) : Bool :=
  let title := lowerStr entry.title
  let summary := (entry.summary.map lowerStr).getD ""
  strContains title filter_word_lower || strContains summary filter_word_lower

/-- The filtered entry list of the Atom pipeline (src/main.rs lines 306-319). -/
def filteredEntries (config : AppConfig) (feed : Feed) : List Entry :=
  let filter_word_lower := lowerStr config.filter_word
  feed.entries.filter (entryMatchesAtom filter_word_lower)

/-- The filtered entry list of the RSS pipeline (src/main.rs lines 366-379). -/
def filteredEntriesRss (config : AppConfig) (feed : Feed) : List Entry :=
  let filter_word_lower := lowerStr config.filter_word
  feed.entries.filter (entryMatchesRss filter_word_lower)

/-- Atom generator element, as populated at src/main.rs lines 331-335. -/
structure GeneratorInfo where
  value : String
  uri : Option String
  version : Option String
  deriving Repr, DecidableEq

/-- The fields of the output Atom feed populated by the `FeedBuilder` chain
at src/main.rs lines 324-337, at the structural level (before XML
serialization, which is library code). -/
structure AtomOutput where
  title : String
  id : String
  updated : Nat
  authors : List Person
  links : List Link
  subtitle : Option String
  generatorInfo : Option GeneratorInfo
  entries : List Entry
  deriving Repr, DecidableEq

/-- The Atom rendering of src/main.rs lines 324-337: title and subtitle from
the configuration, id, authors and links copied from the upstream feed,
`updated` set to the render instant, entries the filtered list verbatim. -/
def renderAtom (config : AppConfig) (feed : Feed) (now : Nat) : AtomOutput :=
  { title := config.feed_title
    id := feed.id
    updated := now
    authors := feed.authors
    links := feed.links
    subtitle := some config.feed_description
    generatorInfo := some { value := "Atom Feed Filter", uri := none,
                            version := some "1.0" }
    entries := filteredEntries config feed }

/-- The tail of `fetch_and_filter_feed` after a successful fetch and parse.
The `FeedBuilder` chain ends in a plain `build()` with no error operator
(src/main.rs line 337), so the build step itself cannot fail; the function
returns the built document. -/
def filterAndRenderAtom (config : AppConfig) (feed : Feed) (now : Nat) :
    Except String AtomOutput :=
  Except.ok (renderAtom config feed now)

/-- The fields of one RSS item populated by the `ItemBuilder` chain at
src/main.rs lines 390-427. The guid pair is (value, permalink flag). -/
structure RssItem where
  title : Option String
  link : Option String
  description : Option String
  pubDate : Option Nat
  guid : Option (String × Bool)
  author : Option String
  deriving Repr, DecidableEq

/-- The Atom-entry-to-RSS-item conversion of src/main.rs lines 389-427:
title copied, link from the first entry link when present, description from
the summary falling back to the content body falling back to the empty
string, publication date from `updated`, guid from the entry id with the
permalink flag false, author from the first author name when present. -/
def entryToRssItem (entry : Entry) : RssItem :=
  { title := some entry.title
    link := (entry.links.head?).map Link.href
    description := some (((entry.summary).or
      ((entry.content).bind Content.value)).getD "")
    pubDate := some entry.updated
    guid := some (entry.id, false)
    author := (entry.authors.head?).map Person.name }

/-- The fields of the output RSS channel populated by the `ChannelBuilder`
chain at src/main.rs lines 432-438. -/
structure RssChannel where
  title : String
  link : String
  description : String
  items : List RssItem
  generatorInfo : Option String
  deriving Repr, DecidableEq

/-- The RSS rendering of src/main.rs lines 387-438: channel title and
description from the configuration, channel link the upstream feed's first
link falling back to the upstream feed id, items the filtered entries
mapped to RSS items. The `ChannelBuilder` chain also ends in a plain
`build()` (line 438), so the build step cannot fail. -/
def renderRss (config : AppConfig) (feed : Feed) : RssChannel :=
  { title := config.feed_title
    link := ((feed.links.head?).map Link.href).getD feed.id
    description := config.feed_description
    items := (filteredEntriesRss config feed).map entryToRssItem
    generatorInfo := some "Atom Feed Filter 1.0" }

/-- Everything a handler invocation produces: the HTTP response (status,
body, content type), the cache slot after the invocation, and how many
pipeline invocations (upstream fetches) it performed. -/
structure ServeOutcome where
  status : Nat
  body : String
  contentType : String
  newCache : Option (String × Nat)
  fetchCount : Nat
  deriving Repr, DecidableEq

/-- The fetch-fresh tail shared by the branches of `serve_atom_feed`
(src/main.rs lines 236-257): on success the cache is replaced with the new
document stamped `now`; on failure the response is a 500 with the error
text and the cache is left untouched. -/
def atomFetchFresh (cache : Option (String × Nat)) (now : Nat)
    (pipeline : Except String String) : ServeOutcome :=
  match pipeline with
  | Except.ok atom_content =>
    { status := 200
      body := atom_content
      contentType := "application/atom+xml; charset=utf-8"
      newCache := some (atom_content, now)
      fetchCount := 1 }
  | Except.error e =>
    { status := 500
      body := "Failed to fetch feed: " ++ e
      contentType := "text/plain"
      newCache := cache
      fetchCount := 1 }

/-- The `/atom` handler (src/main.rs lines 213-258) as a pure function of
the cache slot, the validity duration, the clock, the query parameters and
the outcome the one pipeline invocation would have. `force_refresh` is the
mere presence of the `refresh` key. When no refresh is forced and the slot
holds a document younger than the validity duration, that document is
served with no fetch and the slot is unchanged; otherwise the handler
fetches fresh. -/
def serve_atom_feed (cache : Option (String × Nat)) (cache_duration : Nat)
    (now : Nat) (params : List (String × String))
    (pipeline : Except String String) : ServeOutcome :=
  let force_refresh := (params.lookup "refresh").isSome
  if !force_refresh then
    match cache with
    | some (content, timestamp) =>
      if now - timestamp < cache_duration then
        { status := 200
          body := content
          contentType := "application/atom+xml; charset=utf-8"
          newCache := cache
          fetchCount := 0 }
      else atomFetchFresh cache now pipeline
    | none => atomFetchFresh cache now pipeline
  else atomFetchFresh cache now pipeline

/-- The `/rss` handler (src/main.rs lines 260-284) as a pure function. The
source computes the refresh flag but ignores it, never consults the cache
slot, never writes it, and runs the RSS pipeline on every request. -/
def serve_rss_feed (cache : Option (String × Nat)) (_cache_duration : Nat)
    (_now : Nat) (params : List (String × String))
    (pipeline : Except String String) : ServeOutcome :=
  let _force_refresh := (params.lookup "refresh").isSome
  match pipeline with
  | Except.ok rss_content =>
    { status := 200
      body := rss_content
      contentType := "application/rss+xml; charset=utf-8"
      newCache := cache
      fetchCount := 1 }
  | Except.error e =>
    { status := 500
      body := "Failed to fetch feed: " ++ e
      contentType := "text/plain"
      newCache := cache
      fetchCount := 1 }

-- Substring search characterization -----------------------------------------

theorem isPref_iff (p h : List Char) :
    isPref p h = true ↔ ∃ t, h = p ++ t := by
  induction p generalizing h with
  | nil => simp [isPref]
  | cons a ps ih =>
    cases h with
    | nil =>
      simp [isPref]
    | cons b hs =>
      simp only [isPref, Bool.and_eq_true, beq_iff_eq, ih, List.cons_append,
        List.cons.injEq]
      constructor
      · rintro ⟨rfl, t, rfl⟩
        exact ⟨t, rfl, rfl⟩
      · rintro ⟨t, rfl, rfl⟩
        exact ⟨rfl, t, rfl⟩

theorem hasSub_iff (n h : List Char) :
    hasSub n h = true ↔ ∃ pre post, h = pre ++ n ++ post := by
  induction h with
  | nil =>
    simp only [hasSub, isPref_iff]
    constructor
    · rintro ⟨t, ht⟩
      rcases List.append_eq_nil.mp ht.symm with ⟨rfl, rfl⟩
      exact ⟨[], [], rfl⟩
    · rintro ⟨pre, post, hp⟩
      rcases List.append_eq_nil.mp hp.symm with ⟨h1, rfl⟩
      rcases List.append_eq_nil.mp h1 with ⟨rfl, rfl⟩
      exact ⟨[], rfl⟩
  | cons c rest ih =>
    simp only [hasSub, Bool.or_eq_true, isPref_iff, ih]
    constructor
    · rintro (⟨t, ht⟩ | ⟨pre, post, hp⟩)
      · exact ⟨[], t, by simpa using ht⟩
      · exact ⟨c :: pre, post, by simp [hp]⟩
    · rintro ⟨pre, post, hp⟩
      cases pre with
      | nil =>
        exact Or.inl ⟨post, by simpa using hp⟩
      | cons x pre =>
        simp only [List.cons_append, List.cons.injEq] at hp
        exact Or.inr ⟨pre, post, by simp [hp.1, hp.2]⟩

theorem hasSub_nil_needle (l : List Char) : hasSub [] l = true := by
  cases l <;> simp [hasSub, isPref]

theorem summary_lower_comm (o : Option String) :
    (o.map lowerStr).getD "" = lowerStr (o.getD "") := by
  cases o <;> rfl

-- Concrete sample values used by witnesses and counterexamples --------------

def cfg0 : AppConfig :=
  { atom_feed_url := "http://example.com/feed.atom"
    filter_word := "article"
    feed_title := "Filtered Feed"
    feed_description := "Entries containing article" }

def cfgEmptyWord : AppConfig := { cfg0 with filter_word := "" }

def entry1 : Entry :=
  { title := "Weekly Article Roundup", summary := none, content := none,
    links := [], updated := 0, authors := [], id := "e1" }

def entry2 : Entry :=
  { title := "Bug Fixes", summary := none, content := none,
    links := [], updated := 1, authors := [], id := "e2" }

def feed0 : Feed :=
  { id := "feed-id", authors := [], links := [], entries := [entry1, entry2] }

def feedNoId : Feed := { id := "", authors := [], links := [], entries := [] }

-- Claim theorems -------------------------------------------------------------

/-- Claim C1: an entry is retained by the filter iff the lower-cased title
contains the lower-cased keyword, or the lower-cased summary-or-empty does;
containment is plain contiguous substring occurrence (an explicit
decomposition `pre ++ keyword ++ post`), not token or word-boundary
matching, and the lowering on both sides makes the match case-insensitive. -/
theorem filter_retained_iff_substring (config : AppConfig) (feed : Feed)
    (e : Entry) :
    e ∈ filteredEntries config feed ↔
      e ∈ feed.entries ∧
        ((∃ pre post, (lowerStr e.title).data =
            pre ++ (lowerStr config.filter_word).data ++ post) ∨
         (∃ pre post, (lowerStr (e.summary.getD "")).data =
            pre ++ (lowerStr config.filter_word).data ++ post)) := by
  unfold filteredEntries
  rw [List.mem_filter]
  refine and_congr_right fun _ => ?_
  simp only [entryMatchesAtom, strContains, Bool.or_eq_true, hasSub_iff,
    summary_lower_comm]

/-- Claim C9: the entry-selection predicates of the Atom pipeline and of the
RSS pipeline are extensionally equal, hence both pipelines retain exactly
the same entries from the same parsed feed. -/
theorem atom_rss_filters_agree :
    (∀ w e, entryMatchesAtom w e = entryMatchesRss w e) ∧
    (∀ config feed, filteredEntries config feed = filteredEntriesRss config feed) :=
  ⟨fun _ _ => rfl, fun _ _ => rfl⟩

/-- Claim C10: with the empty filter keyword every entry is retained — the
empty string is a substring of every lower-cased title — so the service
becomes a pass-through of all upstream entries. -/
theorem empty_keyword_retains_all (config : AppConfig) (feed : Feed)
    (h : config.filter_word = "") :
    filteredEntries config feed = feed.entries := by
  unfold filteredEntries
  rw [List.filter_eq_self]
  intro a _
  simp [entryMatchesAtom, strContains, h, lowerStr, hasSub_nil_needle]

/-- Witness for C10 at a concrete configuration and feed. -/
theorem empty_keyword_retains_all_witness :
    filteredEntries cfgEmptyWord feed0 = feed0.entries :=
  empty_keyword_retains_all cfgEmptyWord feed0 rfl

/-- Claim C7: the retained entries appear in the rendered outputs in source
order: the rendered Atom entry list is exactly the stable filter of the
source entry list (hence a sublist, in order), and the rendered RSS item
list is the order-preserving map of that same stable filter. -/
theorem retained_order_preserved (config : AppConfig) (feed : Feed) (now : Nat) :
    List.Sublist (renderAtom config feed now).entries feed.entries ∧
    (renderAtom config feed now).entries =
      feed.entries.filter (entryMatchesAtom (lowerStr config.filter_word)) ∧
    (renderRss config feed).items =
      (feed.entries.filter (entryMatchesRss (lowerStr config.filter_word))).map
        entryToRssItem ∧
    List.Sublist (filteredEntriesRss config feed) feed.entries := by
  refine ⟨?_, rfl, rfl, ?_⟩ <;> exact List.filter_sublist feed.entries

/-- Claim C8: rendering the same filtered entry set twice with the same
configuration yields structurally identical documents once the render
instant (the Atom `updated` field) is normalized; the RSS renderer takes no
clock at all and is a plain function of configuration and feed. -/
theorem render_deterministic (config : AppConfig) (feed : Feed) (t1 t2 : Nat) :
    { renderAtom config feed t1 with updated := 0 } =
      { renderAtom config feed t2 with updated := 0 } ∧
    renderRss config feed = renderRss config feed :=
  ⟨rfl, rfl⟩

/-- Claim C5: the RSS item description is the entry summary when present,
else the content body when present, else the empty string; an entry with
neither summary nor content still yields an item (a `some` description),
never an error. -/
theorem rss_description_fallback (e : Entry) :
    (entryToRssItem e).description =
      some (match e.summary with
            | some s => s
            | none =>
              match (e.content).bind Content.value with
              | some c => c
              | none => "") := by
  cases hs : e.summary <;> cases hc : (e.content).bind Content.value <;>
    simp [entryToRssItem, hs, hc, Option.or]

theorem atomFetchFresh_fetchCount (cache : Option (String × Nat)) (now : Nat)
    (pipeline : Except String String) :
    (atomFetchFresh cache now pipeline).fetchCount = 1 := by
  cases pipeline <;> rfl

theorem atomFetchFresh_error (cache : Option (String × Nat)) (now : Nat)
    (e : String) :
    atomFetchFresh cache now (Except.error e) =
      { status := 500, body := "Failed to fetch feed: " ++ e,
        contentType := "text/plain", newCache := cache, fetchCount := 1 } := rfl

/-- Claim C6 counterexample: the Atom rendering of a parsed feed whose id
element was absent (hence the empty string, the library default) succeeds
and copies the empty id into the output; no `RenderError` is raised. -/
theorem render_succeeds_without_feed_id :
    filterAndRenderAtom cfg0 feedNoId 0 =
      Except.ok (renderAtom cfg0 feedNoId 0) ∧
    (renderAtom cfg0 feedNoId 0).id = "" :=
  ⟨rfl, rfl⟩

/-- Claim C6 amended: the rendering step performs no identity-field
validation and cannot fail — the builder chain ends in a plain infallible
`build()` — and the upstream feed id (the empty string when the element was
absent) is copied verbatim into the output document. -/
theorem render_total_id_copied (config : AppConfig) (feed : Feed) (now : Nat) :
    filterAndRenderAtom config feed now =
      Except.ok (renderAtom config feed now) ∧
    (renderAtom config feed now).id = feed.id :=
  ⟨rfl, rfl⟩

/-- Claim C2 counterexample: an RSS request made with the cache slot
populated (timestamp 100) well inside the validity window (now 100,
duration 300) and carrying no refresh signal still performs one upstream
fetch and serves the freshly fetched document, not the cached one. -/
theorem rss_fresh_cache_still_fetches :
    (serve_rss_feed (some ("cached-doc", 100)) 300 100 []
        (Except.ok "rss-doc")).fetchCount = 1 ∧
    (serve_rss_feed (some ("cached-doc", 100)) 300 100 []
        (Except.ok "rss-doc")).body = "rss-doc" :=
  ⟨rfl, rfl⟩

/-- Claim C2 amended: the cache is a single slot used only by the Atom
endpoint. An Atom request while the slot was populated less than the
validity duration ago and carrying no refresh signal is served from the
cached document with no new fetch and leaves the slot unchanged; an Atom
request at or past the validity duration performs exactly one new fetch.
The RSS endpoint performs exactly one new fetch on every request
regardless of the cache. -/
theorem cache_gate_behavior (cache : Option (String × Nat)) (content : String)
    (ts dur now : Nat) (params : List (String × String))
    (pipeline : Except String String) :
    ((params.lookup "refresh") = none → now - ts < dur →
      serve_atom_feed (some (content, ts)) dur now params pipeline =
        { status := 200, body := content,
          contentType := "application/atom+xml; charset=utf-8",
          newCache := some (content, ts), fetchCount := 0 }) ∧
    (dur ≤ now - ts →
      (serve_atom_feed (some (content, ts)) dur now params pipeline).fetchCount
        = 1) ∧
    (serve_rss_feed cache dur now params pipeline).fetchCount = 1 := by
  refine ⟨?_, ?_, ?_⟩
  · intro h1 h2
    simp [serve_atom_feed, h1, h2]
  · intro h
    by_cases hf : (params.lookup "refresh").isSome = true
    · simp [serve_atom_feed, hf, atomFetchFresh_fetchCount]
    · simp [serve_atom_feed, hf, Nat.not_lt.mpr h, atomFetchFresh_fetchCount]
  · cases pipeline <;> rfl

/-- Witness for the amended C2 at concrete inputs: a fresh-slot Atom request
is served from cache with no fetch, a stale-slot Atom request fetches once,
and an RSS request fetches once even with a fresh slot. -/
theorem cache_gate_behavior_witness :
    serve_atom_feed (some ("doc", 100)) 300 150 [] (Except.ok "new") =
      { status := 200, body := "doc",
        contentType := "application/atom+xml; charset=utf-8",
        newCache := some ("doc", 100), fetchCount := 0 } ∧
    (serve_atom_feed (some ("doc", 100)) 300 500 []
        (Except.ok "new")).fetchCount = 1 ∧
    (serve_rss_feed (some ("doc", 100)) 300 150 []
        (Except.ok "new")).fetchCount = 1 :=
  ⟨(cache_gate_behavior (some ("doc", 100)) "doc" 100 300 150 []
      (Except.ok "new")).1 rfl (by decide),
   (cache_gate_behavior (some ("doc", 100)) "doc" 100 300 500 []
      (Except.ok "new")).2.1 (by decide),
   (cache_gate_behavior (some ("doc", 100)) "doc" 100 300 150 []
      (Except.ok "new")).2.2⟩

/-- Claim C3: when the pipeline invocation fails, both handlers leave the
cache slot exactly as it was; whenever the Atom handler actually ran the
pipeline it answers 500 with the error text, and the RSS handler always
does; and a previously cached document is still served, with no fetch, by a
later non-forced Atom request inside the validity window. -/
theorem failed_run_leaves_cache (cache : Option (String × Nat)) (dur now : Nat)
    (params : List (String × String)) (e : String) :
    (serve_atom_feed cache dur now params (Except.error e)).newCache = cache ∧
    ((serve_atom_feed cache dur now params (Except.error e)).fetchCount = 1 →
      (serve_atom_feed cache dur now params (Except.error e)).status = 500 ∧
      (serve_atom_feed cache dur now params (Except.error e)).body =
        "Failed to fetch feed: " ++ e) ∧
    (serve_rss_feed cache dur now params (Except.error e)).newCache = cache ∧
    (serve_rss_feed cache dur now params (Except.error e)).status = 500 ∧
    (∀ c ts now2, cache = some (c, ts) → now2 - ts < dur →
      (serve_atom_feed cache dur now2 [] (Except.error e)).body = c ∧
      (serve_atom_feed cache dur now2 [] (Except.error e)).fetchCount = 0) := by
  have hatom : ∀ n2 (p2 : List (String × String)),
      serve_atom_feed cache dur n2 p2 (Except.error e) =
        { status := 500, body := "Failed to fetch feed: " ++ e,
          contentType := "text/plain", newCache := cache, fetchCount := 1 } ∨
      ∃ c ts, cache = some (c, ts) ∧ (p2.lookup "refresh").isSome = false ∧
        n2 - ts < dur ∧
        serve_atom_feed cache dur n2 p2 (Except.error e) =
          { status := 200, body := c,
            contentType := "application/atom+xml; charset=utf-8",
            newCache := cache, fetchCount := 0 } := by
    intro n2 p2
    cases hf : (p2.lookup "refresh").isSome with
    | true => left; simp [serve_atom_feed, hf, atomFetchFresh_error]
    | false =>
      cases hc : cache with
      | none => left; simp [serve_atom_feed, hf, hc, atomFetchFresh_error]
      | some pair =>
        obtain ⟨c, ts⟩ := pair
        by_cases hfresh : n2 - ts < dur
        · exact Or.inr ⟨c, ts, rfl, rfl, hfresh,
            by simp [serve_atom_feed, hf, hc, hfresh]⟩
        · left; simp [serve_atom_feed, hf, hc, hfresh, atomFetchFresh_error]
  refine ⟨?_, ?_, ?_, ?_, ?_⟩
  · rcases hatom now params with h | ⟨c, ts, hc, hf, hfr, h⟩ <;> simp [h]
  · intro hfetch
    rcases hatom now params with h | ⟨c, ts, hc, hf, hfr, h⟩
    · simp [h]
    · rw [h] at hfetch
      simp at hfetch
  · rfl
  · rfl
  · intro c ts now2 hc hfresh
    subst hc
    exact ⟨by simp [serve_atom_feed, hfresh], by simp [serve_atom_feed, hfresh]⟩

/-- Witness for C3 at concrete inputs: after a failed run on a stale cache
the slot still holds the old pair and the response is a 500; a later
non-forced request inside the validity window is served the old document
with no fetch. -/
theorem failed_run_leaves_cache_witness :
    (serve_atom_feed (some ("doc", 100)) 300 500 []
        (Except.error "boom")).newCache = some ("doc", 100) ∧
    (serve_atom_feed (some ("doc", 100)) 300 500 []
        (Except.error "boom")).status = 500 ∧
    (serve_atom_feed (some ("doc", 100)) 300 150 []
        (Except.error "boom")).body = "doc" ∧
    (serve_atom_feed (some ("doc", 100)) 300 150 []
        (Except.error "boom")).fetchCount = 0 :=
  ⟨(failed_run_leaves_cache (some ("doc", 100)) 300 500 [] "boom").1,
   ((failed_run_leaves_cache (some ("doc", 100)) 300 500 [] "boom").2.1
      (by decide)).1,
   ((failed_run_leaves_cache (some ("doc", 100)) 300 150 [] "boom").2.2.2.2
      "doc" 100 150 rfl (by decide)).1,
   ((failed_run_leaves_cache (some ("doc", 100)) 300 150 [] "boom").2.2.2.2
      "doc" 100 150 rfl (by decide)).2⟩

/-- Claim C4: a request carrying the `refresh` query key - its mere
presence, any value - makes either handler perform exactly one new fetch,
regardless of the cache slot's content or age. -/
theorem refresh_forces_fetch (cache : Option (String × Nat)) (dur now : Nat)
    (params : List (String × String)) (pipeline : Except String String)
    (h : (params.lookup "refresh").isSome = true) :
    (serve_atom_feed cache dur now params pipeline).fetchCount = 1 ∧
    (serve_rss_feed cache dur now params pipeline).fetchCount = 1 := by
  constructor
  · simp [serve_atom_feed, h, atomFetchFresh_fetchCount]
  · cases pipeline <;> rfl

/-- Witness for C4: a refresh request made at the very instant the slot was
populated (age zero, far below the duration) still fetches, on both
endpoints. -/
theorem refresh_forces_fetch_witness :
    (serve_atom_feed (some ("doc", 100)) 300 100 [("refresh", "1")]
        (Except.ok "new")).fetchCount = 1 ∧
    (serve_rss_feed (some ("doc", 100)) 300 100 [("refresh", "1")]
        (Except.ok "new")).fetchCount = 1 :=
  refresh_forces_fetch (some ("doc", 100)) 300 100 [("refresh", "1")]
    (Except.ok "new") (by decide)
